import Mathlib

/-!
Verification development for the `music-downloader` repository.

The repository contains three generations of the download pipeline:

* `build/lib/build/lib/src/downloader.py` (namespace `V0` below): the
  oldest variant, built on a `rip(query, source, ...)` call that returns a
  `RipResult` with a status (`SUCCESS` / `ALREADY_EXISTS` / other), a
  confidence value and a list of produced files.  It tries Deezer first and
  falls back to Qobuz.
* `build/lib/src/downloader.py` (namespace `Downloader` below): the
  fallback variant built on streamrip client objects.  Per track it logs in
  to Deezer, searches, compares the first search result against the query
  (lower-cased exact title equality, candidate artist membership in the
  query's artist list), fetches on a match, and otherwise falls back to
  Qobuz with the same logic.  `main` loops over all tracks, catching
  per-track exceptions, and finally writes an M3U playlist via
  `generate_m3u`.
* `src/src/core.py` / `music-download.py` (namespace `Core` below): the
  newest variant.  A single Deezer client is logged in once; on login
  failure the whole batch function returns.  Each track is resolved by
  `download_track_with_client` (which catches every exception internally
  and returns `None`), and exactly one of a success / failure counter is
  incremented per track.  Its playlist step writes the sorted `.mp3` file
  names of the download folder, with no `#EXTM3U` header.

Python strings are embedded as `List Char` (`Str` below) so that every
operation is a computable structural recursion; `"..."​.data` in a statement
denotes the corresponding literal.  Network collaborators (streamrip
search / fetch / rip, file system) enter as explicit oracle parameters.
-/

namespace MusicDL

/-- A Python string, embedded as its character sequence. -/
abbrev Str := List Char

/-- `str.lower()` (character-wise lower-casing). -/
def strLower (s : Str) : Str := s.map Char.toLower

/-- `str.split(sep)` for a one-character separator, Python semantics:
`"".split(":") = ['']`, separators at the ends produce empty fields. -/
def splitOnChar (sep : Char) : Str → List Str
  | [] => [[]]
  | c :: rest =>
    let r := splitOnChar sep rest
    if c = sep then [] :: r
    else
      match r with
      | [] => [[c]]
      | g :: gs => (c :: g) :: gs

/-- Lexicographic comparison of Python strings (used by `list.sort()`). -/
def strLe : Str → Str → Bool
  | [], _ => true
  | _ :: _, [] => false
  | a :: as, b :: bs => if a = b then strLe as bs else decide (a < b)

/-- A track as produced by `get_tracks_from_spotify` in
`build/lib/src/downloader.py`: `{'name': ..., 'artists': [...]}`. -/
structure TrackInfo where
  name : Str
  artists : List Str
deriving DecidableEq, Repr

/-- The two configured sources, `PREFERRED_SOURCE = "deezer"` and
`BACKUP_SOURCE = "qobuz"`. -/
inductive SourceId where
  | deezer
  | qobuz
deriving DecidableEq, Repr

namespace Downloader

/-- One raw search result, normalized: `title` and the single artist name
come from `first_result_data.get('title','')` and
`first_result_data.get('artist',{}).get('name','')`; `id` / `albumId`
are `none` exactly when the Python values are missing or falsy. -/
structure Candidate where
  title : Str
  artistName : Str
  id : Option Str
  albumId : Option Str
deriving DecidableEq, Repr

/-- `search_query = f"{', '.join(track_info['artists'])} - {track_name}"`
(`build/lib/src/downloader.py`, lines 164-169; the `re.sub` cleaning step
was removed there, the original string is used directly). -/
def searchQuery (t : TrackInfo) : Str :=
  List.intercalate ", ".data t.artists ++ " - ".data ++ t.name

/-- `title_match = result_title == spotify_title` after lower-casing both
sides (`build/lib/src/downloader.py`, lines 191-195). -/
def titleMatch (t : TrackInfo) (c : Candidate) : Bool :=
  strLower c.title = strLower t.name

/-- `artist_match = result_artist in spotify_artists_lower`
(`build/lib/src/downloader.py`, lines 192-196). -/
def artistMatch (t : TrackInfo) (c : Candidate) : Bool :=
  (t.artists.map strLower).contains (strLower c.artistName)

/-- One source's branch of `download_track`
(`build/lib/src/downloader.py`, lines 176-236 for Deezer, 260-321 for
Qobuz).  Arguments: the login outcome, the candidate list returned by the
source's search, and a `fetch` oracle standing for the
`PendingAlbum`/`PendingTrack` resolve-and-rip block (it returns the path
when `rip_result` exists, `none` when the rip produced no file or raised).
Result: the downloaded path (if any) and whether the fetch block was
entered at all. -/
def attemptSource (t : TrackInfo) (loginOk : Bool) (results : List Candidate)
    (fetch : Candidate → Option Str) : Option Str × Bool :=
  if loginOk = false then (none, false)
  else
    match results with
    | [] => (none, false)
    | c :: _ =>
      if titleMatch t c && artistMatch t c then
        match c.id, c.albumId with
        | some _, some _ => (fetch c, true)
        | _, _ => (none, false)
      else (none, false)

/-- The observable behaviour of one source for a whole run: whether login
succeeds, the search oracle, and the fetch oracle. -/
structure SourceState where
  loginOk : Bool
  search : Str → List Candidate
  fetch : Candidate → Option Str

/-- A source attempt as `download_track` performs it: the candidate list is
obtained by calling the source's search with the built query string. -/
def attemptWithSearch (t : TrackInfo) (s : SourceState) : Option Str × Bool :=
  attemptSource t s.loginOk (s.search (searchQuery t)) s.fetch

/-- Observable events of a run, used to state the temporal claims. -/
inductive Event where
  | login (source : SourceId)
  | fetch (source : SourceId)
deriving DecidableEq, Repr

/-- Run-wide configuration: both sources' behaviour plus whether Qobuz
credentials are present in the config (lines 253-259: missing credentials
skip the Qobuz attempt entirely, before any login). -/
structure RunCfg where
  deezer : SourceState
  qobuzCreds : Bool
  qobuz : SourceState

/-- `download_track` (`build/lib/src/downloader.py`, lines 158-336):
try Deezer (a fresh client is created and `login()` called on every
invocation), and only if no path was downloaded try Qobuz (again with a
fresh client and `login()`), provided Qobuz credentials are configured.
Returns the downloaded path and the trace of login/fetch events. -/
def downloadTrack (cfg : RunCfg) (t : TrackInfo) : Option Str × List Event :=
  let d := attemptWithSearch t cfg.deezer
  let ev0 := Event.login SourceId.deezer ::
    (if d.2 then [Event.fetch SourceId.deezer] else [])
  match d.1 with
  | some p => (some p, ev0)
  | none =>
    if cfg.qobuzCreds then
      let q := attemptWithSearch t cfg.qobuz
      (q.1, ev0 ++ Event.login SourceId.qobuz ::
        (if q.2 then [Event.fetch SourceId.qobuz] else []))
    else (none, ev0)

/-- The per-track loop of `main` (`build/lib/src/downloader.py`, lines
435-448): every track is processed in order, the path is appended on
success, and the events of all tracks are concatenated. -/
def runBatch (cfg : RunCfg) : List TrackInfo → List Str × List Event
  | [] => ([], [])
  | t :: ts =>
    let r := downloadTrack cfg t
    let rest := runBatch cfg ts
    ((match r.1 with
      | some p => p :: rest.1
      | none => rest.1), r.2 ++ rest.2)

/-- Number of Deezer login attempts recorded in an event trace. -/
def deezerLoginCount (evs : List Event) : Nat :=
  (evs.filter (fun e => e = Event.login SourceId.deezer)).length

/-- Path components of a file (a `pathlib.Path`, split at separators). -/
abbrev PathC := List Str

/-- `Path.as_posix()`: join components with forward slashes. -/
def asPosix (p : PathC) : Str := List.intercalate "/".data p

/-- `file_path.relative_to(output_dir)`: strip the directory's components
when they lead the path, raise `ValueError` (modelled as `none`)
otherwise. -/
def relativeTo (p base : PathC) : Option PathC :=
  if base.isPrefixOf p then some (p.drop base.length) else none

/-- The line `generate_m3u` writes for one file
(`build/lib/src/downloader.py`, lines 352-360): the relative path in POSIX
form, falling back to the file's own POSIX path when `relative_to`
raises. -/
def m3uLine (outputDir : PathC) (fp : PathC) : Str :=
  match relativeTo fp outputDir with
  | some r => asPosix r
  | none => asPosix fp

/-- `generate_m3u` (`build/lib/src/downloader.py`, lines 340-364): with no
downloaded files, return without writing anything (`none`); otherwise the
written UTF-8 text is the `#EXTM3U` header line followed by one line per
file. -/
def generate_m3u (downloadedFiles : List PathC) (outputDir : PathC) :
    Option (List Str) :=
  match downloadedFiles with
  | [] => none
  | _ => some ("#EXTM3U".data :: downloadedFiles.map (m3uLine outputDir))

end Downloader

namespace V0

/-- `RipStatus` of the streamrip API used by
`build/lib/build/lib/src/downloader.py`; `failed` stands for every status
other than `SUCCESS` and `ALREADY_EXISTS` (the script only distinguishes
those two). -/
inductive RipStatus where
  | success
  | alreadyExists
  | failed
deriving DecidableEq, Repr

/-- `RipResult`: status, confidence and the list of produced file paths. -/
structure RipResult where
  status : RipStatus
  confidence : ℚ
  files : List Str
deriving DecidableEq, Repr

/-- `CONFIDENCE_THRESHOLD = 0.85`. -/
def CONFIDENCE_THRESHOLD : ℚ := 85 / 100

/-- The terminal classification of one track
(spec: `Success{path} | AlreadyExists | Failed`). -/
inductive Outcome where
  | success (path : Str)
  | alreadyExists
  | failed
deriving DecidableEq, Repr

/-- `true` exactly on `Outcome.success`. -/
def Outcome.isSuccess : Outcome → Bool
  | .success _ => true
  | _ => false

/-- The value `download_track` returns for an outcome: the path on
`Success`, `None` both on `ALREADY_EXISTS` (lines 182-188: "we won't add
pre-existing files to the M3U") and on failure. -/
def Outcome.path : Outcome → Option Str
  | .success p => some p
  | _ => none

/-- The path carried by a `Success` outcome (junk on the other variants,
which are filtered away wherever this is used). -/
def Outcome.successPath : Outcome → Str
  | .success p => p
  | _ => []

/-- `download_track` (`build/lib/build/lib/src/downloader.py`, lines
151-226) given the two `rip` call results (`r0` for Deezer, `r1` for
Qobuz).  Returns the outcome together with the list of source indices on
which `rip` (search + fetch) was actually invoked: on a Deezer `SUCCESS`
above threshold with files, or a Deezer `ALREADY_EXISTS`, the function
returns before the Qobuz `rip` call (lines 175-188 and the
`if not downloaded_path` guard). -/
def download_track (r0 r1 : RipResult) : Outcome × List Nat :=
  if r0.status = RipStatus.success ∧ CONFIDENCE_THRESHOLD ≤ r0.confidence then
    match r0.files with
    | p :: _ => (Outcome.success p, [0])
    | [] =>
      -- SUCCESS status but no files reported: falls through to the backup
      backup
  else if r0.status = RipStatus.alreadyExists then (Outcome.alreadyExists, [0])
  else backup
where
  backup : Outcome × List Nat :=
    if r1.status = RipStatus.success ∧ CONFIDENCE_THRESHOLD ≤ r1.confidence then
      match r1.files with
      | p :: _ => (Outcome.success p, [0, 1])
      | [] => (Outcome.failed, [0, 1])
    else if r1.status = RipStatus.alreadyExists then (Outcome.alreadyExists, [0, 1])
    else (Outcome.failed, [0, 1])

/-- Modelled from the spec: the behaviour of the external streamrip `rip`
collaborator for one source and one query is summarised by the path the
source would deliver the query to (`none` when the source cannot satisfy
it) and the confidence of its match. -/
structure SourceBehavior where
  resolvesTo : Option Str
  confidence : ℚ
deriving DecidableEq, Repr

/-- Modelled from the spec: `rip(..., skip_existing=True)` "must honor a
skip if destination file already exists policy, returning a
distinguishable `AlreadyExists` signal rather than re-downloading"; on a
fresh destination it downloads the file (adding it to the directory) and
reports `SUCCESS`.  Returns the `RipResult` and the directory contents
after the call. -/
def ripModel (b : SourceBehavior) (fs : List Str) : RipResult × List Str :=
  match b.resolvesTo with
  | none => (⟨RipStatus.failed, b.confidence, []⟩, fs)
  | some p =>
    if p ∈ fs then (⟨RipStatus.alreadyExists, b.confidence, []⟩, fs)
    else (⟨RipStatus.success, b.confidence, [p]⟩, fs ++ [p])

/-- One track of a run against a destination directory `fs`: the Deezer
`rip` always happens first; the Qobuz `rip` happens only when the Deezer
result is neither a terminal success nor `ALREADY_EXISTS`, and sees the
directory as the Deezer call left it.  This is `download_track` with
`ripModel` substituted for the external `rip`. -/
def runTrack (b0 b1 : SourceBehavior) (fs : List Str) : Outcome × List Str :=
  let d := ripModel b0 fs
  if d.1.status = RipStatus.success ∧ CONFIDENCE_THRESHOLD ≤ d.1.confidence then
    match d.1.files with
    | p :: _ => (Outcome.success p, d.2)
    | [] => backupRun b1 d.2
  else if d.1.status = RipStatus.alreadyExists then (Outcome.alreadyExists, d.2)
  else backupRun b1 d.2
where
  backupRun (b1 : SourceBehavior) (fs : List Str) : Outcome × List Str :=
    let q := ripModel b1 fs
    if q.1.status = RipStatus.success ∧ CONFIDENCE_THRESHOLD ≤ q.1.confidence then
      match q.1.files with
      | p :: _ => (Outcome.success p, q.2)
      | [] => (Outcome.failed, q.2)
    else if q.1.status = RipStatus.alreadyExists then (Outcome.alreadyExists, q.2)
    else (Outcome.failed, q.2)

/-- The per-track loop of `main` (`build/lib/build/lib/src/downloader.py`
lines 289-294 and `build/lib/src/downloader.py` lines 435-448): tracks are
processed in input order; `download_track` is run under a `try`, so a
raised exception is caught and the loop continues with the next track; the
returned path, when truthy, is appended to
`successfully_downloaded_paths`. -/
def batchSuccesses (step : TrackInfo → Outcome) : List TrackInfo → List Str
  | [] => []
  | t :: ts =>
    match (step t).path with
    | some p => p :: batchSuccesses step ts
    | none => batchSuccesses step ts

end V0

namespace Core

/-- A track as produced by `get_spotify_tracks` in `src/src/spotify.py`:
`{"artist": ..., "title": ...}` (a single artist string). -/
structure CoreTrack where
  artist : Str
  title : Str
deriving DecidableEq, Repr

/-- `search_string = f"{artist} {title}"` (`src/src/core.py`, line 169 and
`src/music-download.py`, line 284). -/
def searchString (t : CoreTrack) : Str := t.artist ++ " ".data ++ t.title

/-- Result of one `download_track_with_client` body before its outermost
`except` clause: a path, an ordinary `None` return, or a raised
exception. -/
inductive StepResult where
  | ok (path : Str)
  | err
  | exn
deriving DecidableEq, Repr

/-- The outermost `try`/`except` of `download_track_with_client`
(`src/src/core.py`, lines 26-116): every exception raised while resolving
one track is caught there and converted into a `None` return. -/
def catchStep : StepResult → Option Str
  | .ok p => some p
  | .err => none
  | .exn => none

/-- The counter loop of `download_multiple_tracks` (`src/src/core.py`,
lines 159-185; identical in `src/music-download.py`, lines 274-300): each
track increments `successful_downloads` when the resolver returned a
truthy result and `failed_downloads` otherwise.  Returns
`(successful_downloads, failed_downloads)` at the summary line. -/
def loopCounts (step : CoreTrack → StepResult) : List CoreTrack → Nat × Nat
  | [] => (0, 0)
  | t :: ts =>
    let rest := loopCounts step ts
    match catchStep (step t) with
    | some _ => (rest.1 + 1, rest.2)
    | none => (rest.1, rest.2 + 1)

/-- Insertion of one string into a sorted list (stable, lexicographic). -/
def insertLe (s : Str) : List Str → List Str
  | [] => [s]
  | x :: xs => if strLe s x then s :: x :: xs else x :: insertLe s xs

/-- `mp3_files.sort()`: stable lexicographic sort. -/
def sortStrings : List Str → List Str
  | [] => []
  | x :: xs => insertLe x (sortStrings xs)

/-- `f.endswith('.mp3')`. -/
def isMp3 (f : Str) : Bool := ".mp3".data.isSuffixOf f

/-- The playlist step of `download_multiple_tracks` (`src/src/core.py`,
lines 187-203): only when the input was a playlist with a name and at
least one download succeeded, the written file's lines are the sorted
`.mp3` entries of the download folder — no `#EXTM3U` header, and not one
line per successful track.  Returns `none` when no file is written. -/
def m3uLines (isPlaylist : Bool) (successfulDownloads : Nat)
    (playlistName : Option Str) (folderFiles : List Str) :
    Option (List Str) :=
  if isPlaylist ∧ 0 < successfulDownloads ∧ playlistName.isSome then
    some (sortStrings (folderFiles.filter isMp3))
  else none

/-- The login gate of `download_multiple_tracks` (`src/src/core.py`, lines
148-153): when the single Deezer client's login fails, the function
returns before the track loop, so no track is processed and no summary is
reached.  Returns the summary counts when reached. -/
def download_multiple_tracks (loginOk : Bool) (step : CoreTrack → StepResult)
    (tracks : List CoreTrack) : Option (Nat × Nat) :=
  if loginOk then some (loopCounts step tracks) else none

end Core

namespace Spotify

instance {ε α : Type} [DecidableEq ε] [DecidableEq α] : DecidableEq (Except ε α) :=
  fun x y =>
    match x, y with
    | .ok a, .ok b =>
      if h : a = b then Decidable.isTrue (by rw [h]) else Decidable.isFalse (by simp [h])
    | .error a, .error b =>
      if h : a = b then Decidable.isTrue (by rw [h]) else Decidable.isFalse (by simp [h])
    | .ok _, .error _ => Decidable.isFalse (by simp)
    | .error _, .ok _ => Decidable.isFalse (by simp)

/-- `base_url = link.split("?")[0]` (`src/src/spotify.py`, line 22). -/
def queryStripped (link : Str) : Str := (splitOnChar '?' link).headD []

/-- `extract_spotify_info` (`src/src/spotify.py`, lines 11-27 and
`src/music-download.py`, lines 60-76): URI form `spotify:<type>:<id>`
returns `(id, type)` = (third, second) colon-separated parts; URL form
strips the query string, splits on `/` and returns (fifth, fourth) parts;
everything else raises `ValueError` (modelled as `Except.error` carrying
the message). -/
def extract_spotify_info (link : Str) : Except Str (Str × Str) :=
  if "spotify:".data.isPrefixOf link then
    match splitOnChar ':' link with
    | _ :: p1 :: p2 :: _ => Except.ok (p2, p1)
    | _ => Except.error ("Invalid Spotify link format: ".data ++ link)
  else if "https://open.spotify.com/".data.isPrefixOf link then
    match splitOnChar '/' (queryStripped link) with
    | _ :: _ :: _ :: p3 :: p4 :: _ => Except.ok (p4, p3)
    | _ => Except.error ("Invalid Spotify link format: ".data ++ link)
  else Except.error ("Invalid Spotify link format: ".data ++ link)

end Spotify

/-! ### Helper lemmas -/

/-- The counter loop is additive over list concatenation: processing
continues past any item, and counts accumulate independently. -/
theorem loopCounts_append (step : Core.CoreTrack → Core.StepResult)
    (l1 l2 : List Core.CoreTrack) :
    Core.loopCounts step (l1 ++ l2) =
      ((Core.loopCounts step l1).1 + (Core.loopCounts step l2).1,
       (Core.loopCounts step l1).2 + (Core.loopCounts step l2).2) := by
  induction l1 with
  | nil => simp [Core.loopCounts]
  | cons x xs ih =>
    simp only [List.cons_append, Core.loopCounts, List.append_eq]
    rw [ih]
    cases hx : Core.catchStep (step x) <;> simp [hx, Prod.ext_iff] <;> omega

/-! ### Claims -/

/-- C1: for every track query and non-empty search-result list, only the
first candidate is examined: (a) with the identifying fields present, the
fetch block is entered exactly when the lower-cased candidate title equals
the lower-cased query title and the lower-cased candidate artist is a
member of the lower-cased query artists; (b) the attempt is independent of
all later candidates; (c) a first candidate failing either test yields no
download and no fetch from that source. -/
theorem C1_first_candidate_exact_match (t : TrackInfo) (c : Downloader.Candidate)
    (rest rest' : List Downloader.Candidate) (fetch : Downloader.Candidate → Option Str)
    (hid : c.id.isSome = true) (halb : c.albumId.isSome = true) :
    ((Downloader.attemptSource t true (c :: rest) fetch).2 = true ↔
      (Downloader.titleMatch t c = true ∧ Downloader.artistMatch t c = true))
    ∧ Downloader.attemptSource t true (c :: rest) fetch =
        Downloader.attemptSource t true (c :: rest') fetch
    ∧ (¬ (Downloader.titleMatch t c = true ∧ Downloader.artistMatch t c = true) →
        Downloader.attemptSource t true (c :: rest) fetch = (none, false)) := by
  obtain ⟨i, hi⟩ := Option.isSome_iff_exists.mp hid
  obtain ⟨a, ha⟩ := Option.isSome_iff_exists.mp halb
  refine ⟨?_, ?_, ?_⟩
  · by_cases h : (Downloader.titleMatch t c && Downloader.artistMatch t c) = true
    · obtain ⟨h1, h2⟩ := Bool.and_eq_true_iff.mp h
      simp [Downloader.attemptSource, hi, ha, h, h1, h2]
    · rw [Bool.not_eq_true, Bool.and_eq_false_iff] at h
      simp only [Downloader.attemptSource]
      rcases h with h | h <;> simp [h]
  · simp [Downloader.attemptSource]
  · intro h
    have h' : (Downloader.titleMatch t c && Downloader.artistMatch t c) = false := by
      rcases Bool.eq_false_or_eq_true (Downloader.titleMatch t c) with h1 | h1
      · rcases Bool.eq_false_or_eq_true (Downloader.artistMatch t c) with h2 | h2
        · exact absurd ⟨h1, h2⟩ h
        · rw [Bool.and_eq_false_iff]; exact Or.inr h2
      · rw [Bool.and_eq_false_iff]; exact Or.inl h1
    simp [Downloader.attemptSource, h']

/-- Witness for C1: the query "Hey Jude" by The Beatles against a first
candidate differing only in artist-name case, which is accepted. -/
theorem C1_witness :
    ((some "123".data : Option Str).isSome = true ∧
      (some "456".data : Option Str).isSome = true)
    ∧ ((Downloader.attemptSource ⟨"Hey Jude".data, ["The Beatles".data]⟩ true
          [⟨"Hey Jude".data, "the beatles".data, some "123".data, some "456".data⟩]
          (fun _ => some "path".data)).2 = true ↔
        (Downloader.titleMatch ⟨"Hey Jude".data, ["The Beatles".data]⟩
            ⟨"Hey Jude".data, "the beatles".data, some "123".data, some "456".data⟩ = true
         ∧ Downloader.artistMatch ⟨"Hey Jude".data, ["The Beatles".data]⟩
            ⟨"Hey Jude".data, "the beatles".data, some "123".data, some "456".data⟩ = true)) :=
  ⟨⟨rfl, rfl⟩,
    (C1_first_candidate_exact_match ⟨"Hey Jude".data, ["The Beatles".data]⟩
      ⟨"Hey Jude".data, "the beatles".data, some "123".data, some "456".data⟩
      [] [⟨"x".data, "y".data, none, none⟩] (fun _ => some "path".data) rfl rfl).1⟩

/-- C2: when the first source terminates the track — a `SUCCESS` result at
or above the confidence threshold with a produced file, or an
`ALREADY_EXISTS` result — the `rip` (resolve-and-fetch) of the second
source is never invoked: the invoked-source trace is exactly `[0]`. -/
theorem C2_no_fetch_after_terminal (r0 r1 : V0.RipResult)
    (h : (r0.status = V0.RipStatus.success ∧ V0.CONFIDENCE_THRESHOLD ≤ r0.confidence ∧
            r0.files ≠ []) ∨ r0.status = V0.RipStatus.alreadyExists) :
    (V0.download_track r0 r1).2 = [0] := by
  rcases h with ⟨hs, hc, hf⟩ | h
  · cases hfi : r0.files with
    | nil => exact absurd hfi hf
    | cons p rest => simp [V0.download_track, hs, hc, hfi]
  · simp [V0.download_track, h]

/-- Witness for C2: an `ALREADY_EXISTS` on the first source stops the run
after source 0. -/
theorem C2_witness :
    (⟨V0.RipStatus.alreadyExists, 0, []⟩ : V0.RipResult).status =
      V0.RipStatus.alreadyExists
    ∧ (V0.download_track ⟨V0.RipStatus.alreadyExists, 0, []⟩
        ⟨V0.RipStatus.success, 1, ["q".data]⟩).2 = [0] :=
  ⟨rfl, C2_no_fetch_after_terminal ⟨V0.RipStatus.alreadyExists, 0, []⟩
    ⟨V0.RipStatus.success, 1, ["q".data]⟩ (Or.inr rfl)⟩

/-- C3 counterexample: with Deezer login failing for the whole run, a
two-track batch still attempts the Deezer login twice — one fresh client
and `login()` call per track — so the failing source is not "marked
unusable for the remainder of the run" with "all later attempts against it
skipped without retry". -/
theorem C3_counterexample :
    Downloader.deezerLoginCount
      (Downloader.runBatch
        { deezer := { loginOk := false, search := fun _ => [], fetch := fun _ => none },
          qobuzCreds := false,
          qobuz := { loginOk := false, search := fun _ => [], fetch := fun _ => none } }
        [⟨"Hey Jude".data, ["The Beatles".data]⟩,
         ⟨"Yesterday".data, ["The Beatles".data]⟩]).2 = 2 := by decide

/-- C3 (amended): a Deezer login failure is non-fatal — when Qobuz is
configured and can satisfy every track, every track of the batch still
resolves (one success per input track, in order), so the batch is not
aborted; but the failing source is not disabled: its login is re-attempted
once for every track of the run. -/
theorem C3_login_failure_nonfatal_but_retried (cfg : Downloader.RunCfg)
    (ts : List TrackInfo)
    (hlogin : cfg.deezer.loginOk = false)
    (hcreds : cfg.qobuzCreds = true)
    (hq : ∀ t ∈ ts, ((Downloader.attemptWithSearch t cfg.qobuz).1).isSome = true) :
    (Downloader.runBatch cfg ts).1.length = ts.length
    ∧ Downloader.deezerLoginCount (Downloader.runBatch cfg ts).2 = ts.length := by
  induction ts with
  | nil => simp [Downloader.runBatch, Downloader.deezerLoginCount]
  | cons t ts ih =>
    have ht := hq t (List.mem_cons_self t ts)
    obtain ⟨p, hp⟩ := Option.isSome_iff_exists.mp ht
    have ihr := ih (fun x hx => hq x (List.mem_cons_of_mem t hx))
    have hd : Downloader.attemptWithSearch t cfg.deezer = (none, false) := by
      simp [Downloader.attemptWithSearch, Downloader.attemptSource, hlogin]
    simp only [Downloader.runBatch, Downloader.downloadTrack, hd, hcreds, hp,
      Downloader.deezerLoginCount, if_true] at *
    cases hq2 : (Downloader.attemptWithSearch t cfg.qobuz).2 <;>
      simp [hq2, hp, List.filter_append, Downloader.deezerLoginCount,
        List.length_append] at * <;>
      omega

/-- Witness for the amended C3: one track, Deezer login failing, Qobuz
returning an exactly-matching candidate and a fetched file. -/
theorem C3_witness :
    (({ deezer := { loginOk := false, search := fun _ => [], fetch := fun _ => none },
        qobuzCreds := true,
        qobuz := { loginOk := true,
                   search := fun _ => [⟨"T".data, "a".data, some "1".data, some "2".data⟩],
                   fetch := fun _ => some "q.flac".data } } : Downloader.RunCfg).deezer.loginOk
        = false)
    ∧ (Downloader.runBatch
        { deezer := { loginOk := false, search := fun _ => [], fetch := fun _ => none },
          qobuzCreds := true,
          qobuz := { loginOk := true,
                     search := fun _ => [⟨"T".data, "a".data, some "1".data, some "2".data⟩],
                     fetch := fun _ => some "q.flac".data } }
        [⟨"T".data, ["A".data]⟩]).1.length = [(⟨"T".data, ["A".data]⟩ : TrackInfo)].length
    ∧ Downloader.deezerLoginCount
        (Downloader.runBatch
          { deezer := { loginOk := false, search := fun _ => [], fetch := fun _ => none },
            qobuzCreds := true,
            qobuz := { loginOk := true,
                       search := fun _ => [⟨"T".data, "a".data, some "1".data, some "2".data⟩],
                       fetch := fun _ => some "q.flac".data } }
          [⟨"T".data, ["A".data]⟩]).2 = [(⟨"T".data, ["A".data]⟩ : TrackInfo)].length :=
  ⟨rfl,
    C3_login_failure_nonfatal_but_retried _ [⟨"T".data, ["A".data]⟩] rfl rfl
      (by decide)⟩

/-- C4: an exception raised while resolving one track is caught (modelled
by `catchStep`, the outermost `except` of the per-track resolver), counted
as exactly one failure, and the remaining tracks are processed exactly as
they would be on their own: the counts over `ts1 ++ [t] ++ ts2` are the
counts over `ts1` plus one failure for `t` plus the counts over `ts2`. -/
theorem C4_exception_isolated_per_item (step : Core.CoreTrack → Core.StepResult)
    (ts1 ts2 : List Core.CoreTrack) (t : Core.CoreTrack)
    (h : step t = Core.StepResult.exn) :
    Core.loopCounts step (ts1 ++ t :: ts2) =
      ((Core.loopCounts step ts1).1 + (Core.loopCounts step ts2).1,
       (Core.loopCounts step ts1).2 + 1 + (Core.loopCounts step ts2).2) := by
  rw [loopCounts_append]
  simp [Core.loopCounts, h, Core.catchStep, Prod.ext_iff]
  omega

/-- Witness for C4: a two-track batch whose first track raises and whose
second succeeds yields one success and one failure. -/
theorem C4_witness :
    ((fun t : Core.CoreTrack =>
        if t.title = "T1".data then Core.StepResult.exn
        else Core.StepResult.ok "p.mp3".data) ⟨"A1".data, "T1".data⟩
      = Core.StepResult.exn)
    ∧ Core.loopCounts
        (fun t : Core.CoreTrack =>
          if t.title = "T1".data then Core.StepResult.exn
          else Core.StepResult.ok "p.mp3".data)
        [⟨"A1".data, "T1".data⟩, ⟨"A2".data, "T2".data⟩] = (1, 1) :=
  ⟨by decide,
    C4_exception_isolated_per_item
      (fun t : Core.CoreTrack =>
        if t.title = "T1".data then Core.StepResult.exn
        else Core.StepResult.ok "p.mp3".data)
      [] [⟨"A2".data, "T2".data⟩] ⟨"A1".data, "T1".data⟩ (by decide)⟩

/-- C5 counterexample: the `core.py` playlist step, run for a playlist
with one successful download and a folder holding `b.mp3`, `a.mp3` and
`cover.jpg`, writes the lines `a.mp3`, `b.mp3`: the first line is not
`#EXTM3U`, and the file lists the sorted folder contents (two lines for
one success), not one line per successfully fetched track. -/
theorem C5_counterexample :
    Core.m3uLines true 1 (some "P".data) ["b.mp3".data, "a.mp3".data, "cover.jpg".data]
      = some ["a.mp3".data, "b.mp3".data]
    ∧ ¬ ("a.mp3".data = "#EXTM3U".data) := by decide

/-- C5 (amended): the `generate_m3u` playlist of the fallback downloader
is skipped exactly when no track succeeded, and otherwise consists of the
`#EXTM3U` header line followed by one line per successfully fetched file,
each the file path relative to the output directory joined with forward
slashes; the `core.py` variant instead writes the sorted `.mp3` names of
the whole folder with no header (see the counterexample). -/
theorem C5_generate_m3u_format (files : List Downloader.PathC)
    (outputDir : Downloader.PathC)
    (hin : ∀ fp ∈ files, outputDir.isPrefixOf fp = true) :
    (files = [] → Downloader.generate_m3u files outputDir = none)
    ∧ (files ≠ [] →
        Downloader.generate_m3u files outputDir =
          some ("#EXTM3U".data ::
            files.map (fun fp => Downloader.asPosix (fp.drop outputDir.length)))) := by
  constructor
  · intro h; subst h; rfl
  · intro h
    cases files with
    | nil => exact absurd rfl h
    | cons f rest =>
      simp only [Downloader.generate_m3u]
      congr 2
      apply List.map_congr_left
      intro fp hfp
      have hpre := hin fp hfp
      simp [Downloader.m3uLine, Downloader.relativeTo, hpre]

/-- Witness for the amended C5: two files inside the `Music` output
directory produce the header plus their two relative forward-slash
lines. -/
theorem C5_witness :
    (∀ fp ∈ [["Music".data, "a.flac".data], ["Music".data, "CD1".data, "b.flac".data]],
      ["Music".data].isPrefixOf fp = true)
    ∧ Downloader.generate_m3u
        [["Music".data, "a.flac".data], ["Music".data, "CD1".data, "b.flac".data]]
        ["Music".data]
      = some ["#EXTM3U".data, "a.flac".data, "CD1/b.flac".data] :=
  ⟨by decide,
    (C5_generate_m3u_format
      [["Music".data, "a.flac".data], ["Music".data, "CD1".data, "b.flac".data]]
      ["Music".data] (by decide)).2 (by decide)⟩

/-- C6: the list of successful paths collected by the batch loop equals
the input order restricted to the tracks whose outcome is `Success`,
mapped to their paths — the same relative order as the input, and
`AlreadyExists` outcomes (whose `download_track` return value is `None`)
contribute nothing. -/
theorem C6_successes_subsequence (step : TrackInfo → V0.Outcome)
    (ts : List TrackInfo) :
    V0.batchSuccesses step ts =
      (ts.filter (fun t => (step t).isSuccess)).map
        (fun t => (step t).successPath) := by
  induction ts with
  | nil => rfl
  | cons t ts ih =>
    cases h : step t <;>
      simp [V0.batchSuccesses, V0.Outcome.path, V0.Outcome.isSuccess,
        V0.Outcome.successPath, h, ih]

/-- C7: running the same track again against the directory produced by a
first run that ended in `Success` yields `AlreadyExists` — the modelled
`rip` skips because the destination file already exists — and writes no
new file (the directory is unchanged). -/
theorem C7_second_run_already_exists (b0 b1 : V0.SourceBehavior)
    (fs : List Str) (p : Str)
    (h : (V0.runTrack b0 b1 fs).1 = V0.Outcome.success p) :
    (V0.runTrack b0 b1 (V0.runTrack b0 b1 fs).2).1 = V0.Outcome.alreadyExists
    ∧ (V0.runTrack b0 b1 (V0.runTrack b0 b1 fs).2).2 = (V0.runTrack b0 b1 fs).2 := by
  cases hb0 : b0.resolvesTo with
  | none =>
    cases hb1 : b1.resolvesTo with
    | none =>
      simp [V0.runTrack, V0.ripModel, V0.runTrack.backupRun, hb0, hb1] at h
    | some q =>
      by_cases hmem : q ∈ fs
      · simp [V0.runTrack, V0.ripModel, V0.runTrack.backupRun, hb0, hb1, hmem] at h
      · by_cases hc : V0.CONFIDENCE_THRESHOLD ≤ b1.confidence
        · have hfs : (V0.runTrack b0 b1 fs).2 = fs ++ [q] := by
            simp [V0.runTrack, V0.ripModel, V0.runTrack.backupRun, hb0, hb1, hmem, hc]
          rw [hfs]
          have hq : q ∈ fs ++ [q] := by simp
          constructor <;>
            simp [V0.runTrack, V0.ripModel, V0.runTrack.backupRun, hb0, hb1, hq]
        · simp [V0.runTrack, V0.ripModel, V0.runTrack.backupRun, hb0, hb1, hmem, hc] at h
  | some r =>
    by_cases hmem : r ∈ fs
    · simp [V0.runTrack, V0.ripModel, hb0, hmem] at h
    · by_cases hc : V0.CONFIDENCE_THRESHOLD ≤ b0.confidence
      · have hfs : (V0.runTrack b0 b1 fs).2 = fs ++ [r] := by
          simp [V0.runTrack, V0.ripModel, hb0, hmem, hc]
        rw [hfs]
        have hr : r ∈ fs ++ [r] := by simp
        constructor <;> simp [V0.runTrack, V0.ripModel, hb0, hr]
      · cases hb1 : b1.resolvesTo with
        | none =>
          simp [V0.runTrack, V0.ripModel, V0.runTrack.backupRun, hb0, hb1, hmem, hc] at h
        | some q =>
          by_cases hqm : q ∈ fs ++ [r]
          · simp [V0.runTrack, V0.ripModel, V0.runTrack.backupRun,
              hb0, hb1, hmem, hc, hqm] at h
          · by_cases hc1 : V0.CONFIDENCE_THRESHOLD ≤ b1.confidence
            · have hfs : (V0.runTrack b0 b1 fs).2 = fs ++ [r] ++ [q] := by
                simp [V0.runTrack, V0.ripModel, V0.runTrack.backupRun,
                  hb0, hb1, hmem, hc, hqm, hc1]
              rw [hfs]
              have hr : r ∈ fs ++ [r] ++ [q] := by simp
              constructor <;> simp [V0.runTrack, V0.ripModel, hb0, hr]
            · simp [V0.runTrack, V0.ripModel, V0.runTrack.backupRun,
                hb0, hb1, hmem, hc, hqm, hc1] at h

/-- Witness for C7: a first run that downloads `p.flac` from the first
source into an empty directory; the second run reports already-exists. -/
theorem C7_witness :
    (V0.runTrack ⟨some "p.flac".data, 1⟩ ⟨none, 0⟩ []).1 =
      V0.Outcome.success "p.flac".data
    ∧ (V0.runTrack ⟨some "p.flac".data, 1⟩ ⟨none, 0⟩
        (V0.runTrack ⟨some "p.flac".data, 1⟩ ⟨none, 0⟩ []).2).1 =
      V0.Outcome.alreadyExists := by
  have hc : V0.CONFIDENCE_THRESHOLD ≤ (1 : ℚ) := by
    norm_num [V0.CONFIDENCE_THRESHOLD]
  have h1 : (V0.runTrack ⟨some "p.flac".data, 1⟩ ⟨none, 0⟩ []).1 =
      V0.Outcome.success "p.flac".data := by
    simp [V0.runTrack, V0.ripModel, hc]
  exact ⟨h1, (C7_second_run_already_exists ⟨some "p.flac".data, 1⟩ ⟨none, 0⟩ []
    "p.flac".data h1).1⟩

/-- C8 counterexample: the `core.py` variant builds its search string as
artist, a single space, then title — for artist `Artist` and title `Song`
it sends `Artist Song`, which differs from the claimed
`<artists> - <title>` form `Artist - Song`. -/
theorem C8_counterexample :
    Core.searchString ⟨"Artist".data, "Song".data⟩ = "Artist Song".data
    ∧ ¬ ("Artist Song".data = "Artist - Song".data) := by decide

/-- C8 (amended): in the fallback downloader the query string sent to a
source is exactly the artist names joined with a comma and space, then a
spaced hyphen, then the title, with no further central reformatting: the
attempt depends on the search oracle only at that one string.  The
`core.py` variant instead sends the single artist, a space and the title
(see the counterexample). -/
theorem C8_search_query_shape (t : TrackInfo) (s1 s2 : Downloader.SourceState)
    (hl : s1.loginOk = s2.loginOk) (hf : s1.fetch = s2.fetch)
    (hs : s1.search (List.intercalate ", ".data t.artists ++ " - ".data ++ t.name) =
          s2.search (List.intercalate ", ".data t.artists ++ " - ".data ++ t.name)) :
    Downloader.searchQuery t =
      List.intercalate ", ".data t.artists ++ " - ".data ++ t.name
    ∧ Downloader.attemptWithSearch t s1 = Downloader.attemptWithSearch t s2 := by
  refine ⟨rfl, ?_⟩
  simp only [Downloader.attemptWithSearch, Downloader.searchQuery]
  rw [hl, hf, hs]

/-- Witness for the amended C8: two source states that differ everywhere
except at the one query string `A, B - T` behave identically for the track
`T` by `A` and `B`. -/
theorem C8_witness :
    ((fun q : Str => if q = "A, B - T".data
        then [(⟨"T".data, "a".data, some "1".data, some "2".data⟩ : Downloader.Candidate)]
        else []) ("A, B - T".data)
      = (fun _ : Str =>
          [(⟨"T".data, "a".data, some "1".data, some "2".data⟩ : Downloader.Candidate)])
        ("A, B - T".data))
    ∧ Downloader.searchQuery ⟨"T".data, ["A".data, "B".data]⟩ =
        List.intercalate ", ".data ["A".data, "B".data] ++ " - ".data ++ "T".data :=
  ⟨by decide,
    (C8_search_query_shape ⟨"T".data, ["A".data, "B".data]⟩
      { loginOk := true,
        search := fun q => if q = "A, B - T".data
          then [⟨"T".data, "a".data, some "1".data, some "2".data⟩] else [],
        fetch := fun _ => some "p".data }
      { loginOk := true,
        search := fun _ => [⟨"T".data, "a".data, some "1".data, some "2".data⟩],
        fetch := fun _ => some "p".data }
      rfl rfl (by decide)).1⟩

/-- C9: over any track list that reaches the summary, every track
increments exactly one of the two counters, so the success count plus the
failure count equals the number of input tracks. -/
theorem C9_counters_partition (step : Core.CoreTrack → Core.StepResult)
    (ts : List Core.CoreTrack) :
    (Core.loopCounts step ts).1 + (Core.loopCounts step ts).2 = ts.length := by
  induction ts with
  | nil => simp [Core.loopCounts]
  | cons t ts ih =>
    simp only [Core.loopCounts]
    cases h : Core.catchStep (step t) <;> simp <;> omega

/-- C10: `extract_spotify_info` returns (third, second) colon-separated
parts of a `spotify:` link with at least three parts, (fifth, fourth)
slash-separated parts of the query-stripped form of an
`https://open.spotify.com/` link with at least five parts, and raises
`ValueError` on every other input — `spotify:` links with fewer than three
parts, URL links with fewer than five, and strings with neither prefix. -/
theorem C10_extract_spotify_info_total (link : Str) :
    ("spotify:".data.isPrefixOf link = true →
      (∀ q0 q1 q2 qr, splitOnChar ':' link = q0 :: q1 :: q2 :: qr →
        Spotify.extract_spotify_info link = Except.ok (q2, q1))
      ∧ ((splitOnChar ':' link).length < 3 →
        Spotify.extract_spotify_info link =
          Except.error ("Invalid Spotify link format: ".data ++ link)))
    ∧ ("spotify:".data.isPrefixOf link = false →
        "https://open.spotify.com/".data.isPrefixOf link = true →
      (∀ q0 q1 q2 q3 q4 qr,
          splitOnChar '/' (Spotify.queryStripped link) =
            q0 :: q1 :: q2 :: q3 :: q4 :: qr →
          Spotify.extract_spotify_info link = Except.ok (q4, q3))
      ∧ ((splitOnChar '/' (Spotify.queryStripped link)).length < 5 →
          Spotify.extract_spotify_info link =
            Except.error ("Invalid Spotify link format: ".data ++ link)))
    ∧ ("spotify:".data.isPrefixOf link = false →
        "https://open.spotify.com/".data.isPrefixOf link = false →
        Spotify.extract_spotify_info link =
          Except.error ("Invalid Spotify link format: ".data ++ link)) := by
  refine ⟨fun h1 => ⟨?_, ?_⟩, fun h1 h2 => ⟨?_, ?_⟩, fun h1 h2 => ?_⟩
  · intro q0 q1 q2 qr hs
    simp [Spotify.extract_spotify_info, h1, hs]
  · intro hlen
    rcases hs : splitOnChar ':' link with _ | ⟨x, _ | ⟨y, _ | ⟨z, r⟩⟩⟩
    · simp [Spotify.extract_spotify_info, h1, hs]
    · simp [Spotify.extract_spotify_info, h1, hs]
    · simp [Spotify.extract_spotify_info, h1, hs]
    · rw [hs] at hlen; simp at hlen; omega
  · intro q0 q1 q2 q3 q4 qr hs
    simp [Spotify.extract_spotify_info, h1, h2, hs]
  · intro hlen
    rcases hs : splitOnChar '/' (Spotify.queryStripped link) with
      _ | ⟨a, _ | ⟨b, _ | ⟨c, _ | ⟨d, _ | ⟨e, r⟩⟩⟩⟩⟩
    · simp [Spotify.extract_spotify_info, h1, h2, hs]
    · simp [Spotify.extract_spotify_info, h1, h2, hs]
    · simp [Spotify.extract_spotify_info, h1, h2, hs]
    · simp [Spotify.extract_spotify_info, h1, h2, hs]
    · simp [Spotify.extract_spotify_info, h1, h2, hs]
    · rw [hs] at hlen; simp at hlen; omega
  · simp [Spotify.extract_spotify_info, h1, h2]

/-- Witness for C10: the URI link `spotify:track:123` parses to the id
`123` and type `track`. -/
theorem C10_witness :
    "spotify:".data.isPrefixOf "spotify:track:123".data = true
    ∧ Spotify.extract_spotify_info "spotify:track:123".data =
        Except.ok ("123".data, "track".data) :=
  ⟨by decide,
    ((C10_extract_spotify_info_total "spotify:track:123".data).1 (by decide)).1
      "spotify".data "track".data "123".data [] (by decide)⟩

end MusicDL
